import Mathlib

/-!
# Verification of the SocketBridge TCP/UDP relay

Shallow embedding of `src/socketbridge.cpp` (together with the class
declarations of `socketbridge.h`).  The program relays fixed-size 56-byte
packets between one TCP connection and one UDP socket using boost::asio
callback-chained asynchronous I/O on a single `io_service`.

Modelling conventions:

* Every asio completion handler (the lambdas in the source) becomes a pure
  Lean function from the explicit endpoint/bridge state and the completion
  data `(error_code, bytes)` to the successor state plus a list of `Action`s
  — the observable effects the handler performs: issuing an asynchronous
  read/receive, write/send, or printing a log line.
* Error codes are `Option String`: `none` is a zero (success) error code,
  matching the source's `if(!ec)` tests; `some e` carries `ec`'s text.
* Bytes are `Nat` (C++ `char` values) and a packet is a `List Nat`; the
  fixed 56-byte receive buffers `recv_buffer_` are fields of the endpoint
  states, kept at length `packetSize` by the handlers.
* boost::asio semantics used by the embedding, each documented behaviour of
  the library the source calls:
  - a completed transfer overwrites only the first `length` bytes of the
    supplied buffer (`fillBuffer`);
  - `async_read(socket, buffer(b, n), h)` completes without error only when
    exactly `n` bytes were read (its completion condition is transfer-all;
    EOF or a short stream delivers an error) — this appears as the
    `data.length = packetSize` hypothesis on successful TCP reads;
  - `async_receive_from(buffer(b, n), sender, h)` completes one datagram:
    without error it delivers `min(datagramSize, n)` bytes and stores the
    datagram's source endpoint into its `sender` reference argument — the
    source passes `remote_endpoint_` there, so a successful receive
    overwrites `remote_endpoint_`;
  - asynchronous operations never throw; failures (including operations on
    a closed or unconnected socket) are delivered to the completion handler
    as a nonzero error code.
* The raw cross pointers `TCP_Client::udpServer` and `UDP_Server::tcpServer`
  are modelled by `Bool` flags telling whether `setUdp`/`setTcp` has run;
  a handler that would dereference an unset pointer returns `none`
  (undefined behaviour), so totality of an execution states pointer safety.
-/

namespace SocketBridge

/-- `const int packetSize = 56` from socketbridge.h. -/
def packetSize : Nat := 56

/-- An IP endpoint: (host, port). -/
structure Addr where
  host : String
  port : Nat
deriving DecidableEq, Repr

/-- A byte buffer (C++ `char` values as `Nat`). -/
abbrev Packet := List Nat

/-- Effect of a completed socket operation on a receive buffer: the first
`data.length` bytes are overwritten with the transferred bytes, the rest of
the buffer keeps its previous contents (asio fills only the transferred
prefix of the supplied buffer). -/
def fillBuffer (buf data : Packet) : Packet :=
  data ++ buf.drop data.length

/-- TCP socket lifecycle: `async_connect` pending, connected, or closed by
`socket_.close()`.  The source never reopens a closed socket. -/
inductive TcpSock
  | connecting
  | connected
  | closed
deriving DecidableEq, Repr

/-- State of `SocketBridge::TCP_Client`: the socket, the 56-byte
`recv_buffer_`, and whether `setUdp` has stored the `udpServer` pointer. -/
structure TCP_Client where
  sock : TcpSock
  recv_buffer_ : Packet
  udpServerSet : Bool
deriving DecidableEq, Repr

/-- State of `SocketBridge::UDP_Server`: the socket (never closed by the
source), `recv_buffer_`, `remote_endpoint_` (initialised from the
configured host/port, then overwritten by each successful
`async_receive_from`), and whether `setTcp` has stored the `tcpServer`
pointer. -/
structure UDP_Server where
  sockOpen : Bool
  recv_buffer_ : Packet
  remote_endpoint_ : Addr
  tcpServerSet : Bool
deriving DecidableEq, Repr

/-- Observable effects a handler performs: asynchronous operations issued
on the sockets, and console log lines (`logLine` for std::cout, `logError`
for std::cerr). -/
inductive Action
  | tcpReadIssued
  | tcpWriteIssued (message : Packet)
  | udpRecvIssued
  | udpSendToIssued (message : Packet) (dest : Addr)
  | logLine (msg : String)
  | logError (msg : String)
deriving DecidableEq, Repr

/-- `TCP_Client::setUdp` (socketbridge.cpp lines 86-89): stores the UDP
server pointer. -/
def TCP_Client.setUdp (t : TCP_Client) : TCP_Client :=
  { t with udpServerSet := true }

/-- `TCP_Client::start_read` (lines 92-94): issues
`async_read(socket_, buffer(recv_buffer_, packetSize), …)`.  The state is
unchanged; the completion lambda is `Bridge.tcp_read_done` below. -/
def TCP_Client.start_read (t : TCP_Client) : TCP_Client × List Action :=
  (t, [Action.tcpReadIssued])

/-- `TCP_Client::handle_write` (lines 111-113): the packet parameter is a
`boost::array<char, 56>` taken **by value**, and the function issues
`async_write(socket_, buffer(message, packetSize), …)` unconditionally —
it performs no state change and no check of the socket. -/
def TCP_Client.handle_write (t : TCP_Client) (message : Packet) :
    TCP_Client × List Action :=
  (t, [Action.tcpWriteIssued message])

/-- The completion lambda of `TCP_Client::handle_write` (lines 114-121):
on error, log to std::cerr and `socket_.close()`; on success, nothing. -/
def TCP_Client.handle_write_done (t : TCP_Client) (ec : Option String) :
    TCP_Client × List Action :=
  match ec with
  | some e =>
      ({ t with sock := TcpSock.closed },
       [Action.logError ("SocketBridge: TCP writing failed: " ++ e)])
  | none => (t, [])

/-- The completion lambda of the `async_connect` issued by the
`TCP_Client` constructor (lines 70-82): on success log to std::cout and
`start_read()`; on failure only log to std::cerr (the socket is neither
closed nor retried). -/
def TCP_Client.connect_done (t : TCP_Client) (ec : Option String) :
    TCP_Client × List Action :=
  match ec with
  | none =>
      let s := TCP_Client.start_read { t with sock := TcpSock.connected }
      (s.1, Action.logLine "SocketBridge: TCP client connected" :: s.2)
  | some e =>
      (t, [Action.logError ("SocketBridge: tcp failed to connect: " ++ e)])

/-- `UDP_Server::setTcp` (lines 150-153): stores the TCP client pointer. -/
def UDP_Server.setTcp (u : UDP_Server) : UDP_Server :=
  { u with tcpServerSet := true }

/-- `UDP_Server::start_read` (lines 156-159): issues
`async_receive_from(buffer(recv_buffer_, packetSize), remote_endpoint_, …)`.
The completion lambda is `Bridge.udp_read_done` below. -/
def UDP_Server.start_read (u : UDP_Server) : UDP_Server × List Action :=
  (u, [Action.udpRecvIssued])

/-- `UDP_Server::handle_send` (lines 176-180): the packet parameter is
taken **by value**; issues
`async_send_to(buffer(message, packetSize), remote_endpoint_, …)` — the
destination is whatever `remote_endpoint_` currently holds. -/
def UDP_Server.handle_send (u : UDP_Server) (message : Packet) :
    UDP_Server × List Action :=
  (u, [Action.udpSendToIssued message u.remote_endpoint_])

/-- The completion lambda of `UDP_Server::handle_send` (lines 181-187):
on error only a std::cerr log; the socket is never closed. -/
def UDP_Server.handle_send_done (u : UDP_Server) (ec : Option String) :
    UDP_Server × List Action :=
  match ec with
  | some e =>
      (u, [Action.logError ("SocketBridge: UDP sending failed: " ++ e)])
  | none => (u, [])

/-- The pair of cross-wired endpoints owned by one `startConnections`
call. -/
structure Bridge where
  tcp : TCP_Client
  udp : UDP_Server
deriving DecidableEq, Repr

/-- The completion lambda of `TCP_Client::start_read` (lines 95-107).
asio first fills `recv_buffer_` with the transferred bytes; on a zero
error code the handler calls `this->udpServer->handle_send(recv_buffer_)`
and then `this->start_read()`; on error it logs to std::cerr and calls
`socket_.close()`.  `none` models the null dereference of `udpServer`. -/
def Bridge.tcp_read_done (b : Bridge) (ec : Option String) (data : Packet) :
    Option (Bridge × List Action) :=
  match ec with
  | none =>
      let t0 : TCP_Client :=
        { b.tcp with recv_buffer_ := fillBuffer b.tcp.recv_buffer_ data }
      if t0.udpServerSet then
        let s1 := b.udp.handle_send t0.recv_buffer_
        let s2 := t0.start_read
        some ({ tcp := s2.1, udp := s1.1 }, s1.2 ++ s2.2)
      else none
  | some e =>
      some ({ b with tcp := { b.tcp with sock := TcpSock.closed } },
            [Action.logError ("SocketBridge: TCP failed read: " ++ e)])

/-- The completion lambda of `UDP_Server::start_read` (lines 160-172).
On a zero error code asio has filled `recv_buffer_` with the datagram's
bytes and stored the datagram's source endpoint into `remote_endpoint_`
(the reference argument of `async_receive_from`); the handler then calls
`this->tcpServer->handle_write(recv_buffer_)` and `start_read()`.  On
error it only logs to std::cerr: the socket stays open and no new receive
is issued.  `none` models the null dereference of `tcpServer`. -/
def Bridge.udp_read_done (b : Bridge) (ec : Option String) (sender : Addr)
    (data : Packet) : Option (Bridge × List Action) :=
  match ec with
  | none =>
      let u0 : UDP_Server :=
        { b.udp with
            recv_buffer_ := fillBuffer b.udp.recv_buffer_ data,
            remote_endpoint_ := sender }
      if u0.tcpServerSet then
        let s1 := b.tcp.handle_write u0.recv_buffer_
        let s2 := u0.start_read
        some ({ tcp := s1.1, udp := s2.1 }, s1.2 ++ s2.2)
      else none
  | some e =>
      some (b, [Action.logError ("SocketBridge: UDP reading failed: " ++ e)])

/-- A completion event delivered by `io_service.run()` to one of the five
handlers of the source. -/
inductive Event
  | tcpConnectDone (ec : Option String)
  | tcpReadDone (ec : Option String) (data : Packet)
  | tcpWriteDone (ec : Option String)
  | udpRecvDone (ec : Option String) (sender : Addr) (data : Packet)
  | udpSendDone (ec : Option String)
deriving DecidableEq, Repr

/-- Dispatch of one completion event to its handler.  `none` models a
null-pointer dereference inside the handler. -/
def Bridge.step (b : Bridge) : Event → Option (Bridge × List Action)
  | Event.tcpConnectDone ec =>
      let s := b.tcp.connect_done ec
      some ({ b with tcp := s.1 }, s.2)
  | Event.tcpReadDone ec data => b.tcp_read_done ec data
  | Event.tcpWriteDone ec =>
      let s := b.tcp.handle_write_done ec
      some ({ b with tcp := s.1 }, s.2)
  | Event.udpRecvDone ec sender data => b.udp_read_done ec sender data
  | Event.udpSendDone ec =>
      let s := b.udp.handle_send_done ec
      some ({ b with udp := s.1 }, s.2)

/-- The single-threaded event loop: handlers run one after the other in
event order; `none` when any handler hits undefined behaviour. -/
def Bridge.run (b : Bridge) : List Event → Option (Bridge × List Action)
  | [] => some (b, [])
  | e :: es =>
      match b.step e with
      | none => none
      | some s =>
          match s.1.run es with
          | none => none
          | some s' => some (s'.1, s.2 ++ s'.2)

/-- The four construction parameters stored by the `SocketBridge`
constructor (lines 18-28). -/
structure Config where
  tcpIp : String
  tcpPort : Nat
  udpIp : String
  udpPort : Nat
deriving DecidableEq, Repr

/-- Outcome of `SocketBridge::startConnections` (lines 31-59): either
`io_service.run()` was entered with a fully wired bridge, or an exception
thrown during resolution/construction was caught by the `catch` block,
its `what()` printed to std::cerr, and the function returned normally. -/
inductive StartResult
  | ran (b : Bridge)
  | caught (msg : String)
deriving DecidableEq, Repr

/-- `SocketBridge::startConnections` (lines 31-59).  The fallible steps of
the try block — `resolver.resolve` and the `UDP_Server` constructor's
`socket_.bind` — are passed as `Except` values (`Except.error e` models a
thrown exception with `what() = e`).  On success the `UDP_Server` is built
with `remote_endpoint_` from the configured UDP host/port (the constructor
then **binds the socket to that very endpoint**, line 145, and issues the
first receive), the `TCP_Client` is built issuing its `async_connect`,
then `setUdp`/`setTcp` cross-wire the two **before** `io_service.run()`
executes any completion handler.  The uninitialised C++ receive buffers
are parameters.  Any exception propagating out of the try block is caught,
logged, and `startConnections` returns normally. -/
def startConnections (resolved : Except String Addr)
    (udpBind : Except String Unit) (udpInitBuf tcpInitBuf : Packet)
    (cfg : Config) : StartResult :=
  match resolved with
  | Except.error e => StartResult.caught e
  | Except.ok _ =>
      match udpBind with
      | Except.error e => StartResult.caught e
      | Except.ok _ =>
          let udp0 : UDP_Server :=
            { sockOpen := true
              recv_buffer_ := udpInitBuf
              remote_endpoint_ := { host := cfg.udpIp, port := cfg.udpPort }
              tcpServerSet := false }
          let tcp0 : TCP_Client :=
            { sock := TcpSock.connecting
              recv_buffer_ := tcpInitBuf
              udpServerSet := false }
          StartResult.ran { tcp := tcp0.setUdp, udp := udp0.setTcp }

/-! ## Concrete fixtures (used by counterexamples and witnesses) -/

/-- An example configuration: TCP peer 127.0.0.1:9000, UDP 192.168.0.10:5000. -/
def cfgEx : Config :=
  { tcpIp := "127.0.0.1", tcpPort := 9000
    udpIp := "192.168.0.10", udpPort := 5000 }

/-- The resolved TCP peer address of `cfgEx`. -/
def tcpAddrEx : Addr := { host := "127.0.0.1", port := 9000 }

/-- The UDP (host, port) given at configuration time in `cfgEx`. -/
def addrConfigured : Addr := { host := "192.168.0.10", port := 5000 }

/-- A different address, from which a datagram may arrive. -/
def addrOther : Addr := { host := "10.0.0.9", port := 7777 }

/-- An all-zero 56-byte buffer. -/
def zeroBuf : Packet := List.replicate packetSize 0

/-- A full-size packet of `'A'` bytes. -/
def pktA : Packet := List.replicate packetSize 65

/-- A full-size packet of `'B'` bytes. -/
def pktB : Packet := List.replicate packetSize 66

/-- A 10-byte datagram payload, shorter than `packetSize`. -/
def dShort : Packet := List.replicate 10 7

/-- The wired bridge that `startConnections` hands to `io_service.run()`
under `cfgEx` (buffers modelled as zeroed). -/
def bridge0 : Bridge :=
  { tcp := { sock := TcpSock.connecting, recv_buffer_ := zeroBuf
             udpServerSet := true }
    udp := { sockOpen := true, recv_buffer_ := zeroBuf
             remote_endpoint_ := addrConfigured, tcpServerSet := true } }

/-- `bridge0` is exactly what `startConnections` builds from `cfgEx` when
resolution and bind succeed. -/
lemma startConnections_cfgEx :
    startConnections (Except.ok tcpAddrEx) (Except.ok ()) zeroBuf zeroBuf cfgEx
      = StartResult.ran bridge0 := rfl

/-- A bridge whose UDP receive buffer still holds the bytes of a previous
full-size packet (`pktB`). -/
def bridgeStale : Bridge :=
  { tcp := { sock := TcpSock.connected, recv_buffer_ := zeroBuf
             udpServerSet := true }
    udp := { sockOpen := true, recv_buffer_ := pktB
             remote_endpoint_ := addrConfigured, tcpServerSet := true } }

/-! ## Helper lemmas -/

/-- Filling a buffer with at least as many bytes as it holds replaces it. -/
lemma fillBuffer_full (buf d : Packet) (h : buf.length ≤ d.length) :
    fillBuffer buf d = d := by
  simp [fillBuffer, List.drop_eq_nil_of_le h]

/-- A successful TCP read completion: the buffer is refilled, the packet is
handed to the UDP side's `handle_send`, then the read re-arms. -/
lemma tcp_read_done_success (b : Bridge) (d : Packet)
    (h : b.tcp.udpServerSet = true) :
    b.tcp_read_done none d =
      some ({ tcp := { sock := b.tcp.sock
                       recv_buffer_ := fillBuffer b.tcp.recv_buffer_ d
                       udpServerSet := b.tcp.udpServerSet }
              udp := b.udp },
            [Action.udpSendToIssued (fillBuffer b.tcp.recv_buffer_ d)
               b.udp.remote_endpoint_,
             Action.tcpReadIssued]) := by
  simp [Bridge.tcp_read_done, UDP_Server.handle_send, TCP_Client.start_read, h]

/-- A successful UDP receive completion: the buffer is refilled,
`remote_endpoint_` becomes the datagram's source, the packet is handed to
the TCP side's `handle_write`, then the receive re-arms. -/
lemma udp_read_done_success (b : Bridge) (sender : Addr) (d : Packet)
    (h : b.udp.tcpServerSet = true) :
    b.udp_read_done none sender d =
      some ({ tcp := b.tcp
              udp := { sockOpen := b.udp.sockOpen
                       recv_buffer_ := fillBuffer b.udp.recv_buffer_ d
                       remote_endpoint_ := sender
                       tcpServerSet := b.udp.tcpServerSet } },
            [Action.tcpWriteIssued (fillBuffer b.udp.recv_buffer_ d),
             Action.udpRecvIssued]) := by
  simp [Bridge.udp_read_done, TCP_Client.handle_write, UDP_Server.start_read, h]

/-! ## Claim theorems -/

/-- C2: for every packet of exactly `packetSize` (56) bytes received on one
endpoint, the other endpoint issues exactly one write/send of exactly those
bytes, unmodified, in both directions: a successful TCP read completion of
a 56-byte `d` yields exactly the action list
`[udpSendToIssued d remote_endpoint_, tcpReadIssued]`, and a successful UDP
receive of a 56-byte `d` yields exactly
`[tcpWriteIssued d, udpRecvIssued]`. -/
theorem C2_forward_exact (b : Bridge) (sender : Addr) (d : Packet)
    (hd : d.length = packetSize)
    (hbt : b.tcp.recv_buffer_.length = packetSize)
    (hbu : b.udp.recv_buffer_.length = packetSize)
    (h1 : b.tcp.udpServerSet = true) (h2 : b.udp.tcpServerSet = true) :
    (∃ b1, b.tcp_read_done none d =
        some (b1, [Action.udpSendToIssued d b.udp.remote_endpoint_,
                   Action.tcpReadIssued])) ∧
    (∃ b2, b.udp_read_done none sender d =
        some (b2, [Action.tcpWriteIssued d, Action.udpRecvIssued])) := by
  have ht : fillBuffer b.tcp.recv_buffer_ d = d :=
    fillBuffer_full _ _ (by rw [hbt, hd])
  have hu : fillBuffer b.udp.recv_buffer_ d = d :=
    fillBuffer_full _ _ (by rw [hbu, hd])
  constructor
  · exact ⟨{ tcp := { sock := b.tcp.sock
                      recv_buffer_ := fillBuffer b.tcp.recv_buffer_ d
                      udpServerSet := b.tcp.udpServerSet }
             udp := b.udp },
           by rw [tcp_read_done_success b d h1, ht]⟩
  · exact ⟨{ tcp := b.tcp
             udp := { sockOpen := b.udp.sockOpen
                      recv_buffer_ := fillBuffer b.udp.recv_buffer_ d
                      remote_endpoint_ := sender
                      tcpServerSet := b.udp.tcpServerSet } },
           by rw [udp_read_done_success b sender d h2, hu]⟩

/-- C2 witness at a concrete bridge and packet. -/
theorem C2_forward_exact_witness :
    (∃ b1, bridge0.tcp_read_done none pktA =
        some (b1, [Action.udpSendToIssued pktA bridge0.udp.remote_endpoint_,
                   Action.tcpReadIssued])) ∧
    (∃ b2, bridge0.udp_read_done none addrOther pktA =
        some (b2, [Action.tcpWriteIssued pktA, Action.udpRecvIssued])) :=
  C2_forward_exact bridge0 addrOther pktA (by decide) (by decide) (by decide)
    rfl rfl

/-- C4: reads/receives are strictly sequential per endpoint: whenever a
successful read (or receive) completion produces actions, those actions are
exactly one forward to the other endpoint followed by exactly one re-arm of
the same endpoint's read/receive, in that order — the forward happens
before the next read/receive is issued. -/
theorem C4_forward_then_rearm (b : Bridge) (sender : Addr) (d : Packet)
    (h1 : b.tcp.udpServerSet = true) (h2 : b.udp.tcpServerSet = true) :
    (∀ s, b.tcp_read_done none d = some s →
      ∃ p, s.2 = [Action.udpSendToIssued p b.udp.remote_endpoint_,
                  Action.tcpReadIssued]) ∧
    (∀ s, b.udp_read_done none sender d = some s →
      ∃ p, s.2 = [Action.tcpWriteIssued p, Action.udpRecvIssued]) := by
  constructor
  · intro s hs
    rw [tcp_read_done_success b d h1] at hs
    exact ⟨fillBuffer b.tcp.recv_buffer_ d, by rw [← Option.some_inj.mp hs]⟩
  · intro s hs
    rw [udp_read_done_success b sender d h2] at hs
    exact ⟨fillBuffer b.udp.recv_buffer_ d, by rw [← Option.some_inj.mp hs]⟩

/-- C4 witness at a concrete bridge and packet. -/
theorem C4_forward_then_rearm_witness :
    (∀ s, bridge0.tcp_read_done none pktA = some s →
      ∃ p, s.2 = [Action.udpSendToIssued p bridge0.udp.remote_endpoint_,
                  Action.tcpReadIssued]) ∧
    (∀ s, bridge0.udp_read_done none addrOther pktA = some s →
      ∃ p, s.2 = [Action.tcpWriteIssued p, Action.udpRecvIssued]) :=
  C4_forward_then_rearm bridge0 addrOther pktA rfl rfl

/-- C5: calling `handle_write` on a non-connected TCP endpoint does not
crash: the call itself changes no state and only issues the (doomed)
asynchronous write, and the error completion that asio delivers for a
non-connected socket produces exactly one error-log line and a transition
to `closed` — nothing is forwarded, nothing else happens. -/
theorem C5_send_not_connected (t : TCP_Client) (m : Packet) (e : String)
    (h : t.sock ≠ TcpSock.connected) :
    t.handle_write m = (t, [Action.tcpWriteIssued m]) ∧
    t.handle_write_done (some e) =
      ({ t with sock := TcpSock.closed },
       [Action.logError ("SocketBridge: TCP writing failed: " ++ e)]) :=
  ⟨rfl, rfl⟩

/-- C5 witness: a closed concrete endpoint. -/
theorem C5_send_not_connected_witness :
    TCP_Client.handle_write
        { sock := TcpSock.closed, recv_buffer_ := zeroBuf, udpServerSet := true }
        pktA
      = ({ sock := TcpSock.closed, recv_buffer_ := zeroBuf, udpServerSet := true },
         [Action.tcpWriteIssued pktA]) ∧
    TCP_Client.handle_write_done
        { sock := TcpSock.closed, recv_buffer_ := zeroBuf, udpServerSet := true }
        (some "bad descriptor")
      = ({ sock := TcpSock.closed, recv_buffer_ := zeroBuf, udpServerSet := true },
         [Action.logError ("SocketBridge: TCP writing failed: " ++ "bad descriptor")]) :=
  C5_send_not_connected
    { sock := TcpSock.closed, recv_buffer_ := zeroBuf, udpServerSet := true }
    pktA "bad descriptor" (by decide)

/-- C6: on a write/send error the two transports diverge: a TCP write
error completion closes the TCP socket (state `closed`) and logs, while a
UDP send error completion only logs and leaves the UDP server state —
including its open socket — entirely unchanged. -/
theorem C6_write_failure_divergence (t : TCP_Client) (u : UDP_Server)
    (e1 e2 : String) :
    t.handle_write_done (some e1) =
      ({ t with sock := TcpSock.closed },
       [Action.logError ("SocketBridge: TCP writing failed: " ++ e1)]) ∧
    u.handle_send_done (some e2) =
      (u, [Action.logError ("SocketBridge: UDP sending failed: " ++ e2)]) :=
  ⟨rfl, rfl⟩

/-- C7: an exception thrown during endpoint construction in
`startConnections` (resolution failure or UDP bind failure) is caught at
the coordinator level: the function returns `caught e` — the `what()` text
is reported — and this outcome is never the `ran` outcome, so the event
loop (and hence any relay) does not run. -/
theorem C7_construction_failure_caught (e : String) (a : Addr)
    (udpBind : Except String Unit) (buf1 buf2 : Packet) (cfg : Config) :
    startConnections (Except.error e) udpBind buf1 buf2 cfg
      = StartResult.caught e ∧
    startConnections (Except.ok a) (Except.error e) buf1 buf2 cfg
      = StartResult.caught e ∧
    (∀ b : Bridge, StartResult.caught e ≠ StartResult.ran b) :=
  ⟨rfl, rfl, fun _ h => StartResult.noConfusion h⟩

/-- C1 is false on the code: `async_receive_from` stores each datagram's
source address into `remote_endpoint_`, and `handle_send` sends to the
current `remote_endpoint_`.  Concretely: under `cfgEx` the configured UDP
address is `addrConfigured`, a datagram arrives from `addrOther`, and the
next TCP-to-UDP forward is a send-to `addrOther`, not to the configured
address. -/
theorem C1_counterexample :
    (bridge0.run [Event.udpRecvDone none addrOther pktA,
        Event.tcpReadDone none pktB]).map Prod.snd
      = some [Action.tcpWriteIssued pktA, Action.udpRecvIssued,
              Action.udpSendToIssued pktB addrOther, Action.tcpReadIssued] ∧
    addrOther ≠ addrConfigured ∧
    bridge0.udp.remote_endpoint_ = addrConfigured := by
  exact ⟨rfl, by decide, rfl⟩

/-- C1 (amended): every UDP send is a send-to the *current* value of
`remote_endpoint_`; `startConnections` initialises `remote_endpoint_` to
the configured UDP (host, port) — which the constructor also uses as the
local bind address — but every successful receive overwrites it with the
source address of the datagram just received, so sends go to the source of
the most recently received datagram (the configured address only until the
first datagram arrives). -/
theorem C1_amended (b : Bridge) (u : UDP_Server) (m d : Packet)
    (sender : Addr) (h : b.udp.tcpServerSet = true) :
    (u.handle_send m).2 = [Action.udpSendToIssued m u.remote_endpoint_] ∧
    (∃ s, b.udp_read_done none sender d = some s ∧
        s.1.udp.remote_endpoint_ = sender) ∧
    (∀ (r : Addr) (buf1 buf2 : Packet) (cfg : Config) (b0 : Bridge),
        startConnections (Except.ok r) (Except.ok ()) buf1 buf2 cfg
          = StartResult.ran b0 →
        b0.udp.remote_endpoint_ = { host := cfg.udpIp, port := cfg.udpPort }) := by
  refine ⟨rfl, ⟨_, udp_read_done_success b sender d h, rfl⟩, ?_⟩
  intro r buf1 buf2 cfg b0 h0
  simp only [startConnections, TCP_Client.setUdp, UDP_Server.setTcp] at h0
  injection h0 with h'
  rw [← h']

/-- C1 amended witness at concrete inputs. -/
theorem C1_amended_witness :
    (bridge0.udp.handle_send pktA).2
      = [Action.udpSendToIssued pktA bridge0.udp.remote_endpoint_] ∧
    (∃ s, bridge0.udp_read_done none addrOther pktA = some s ∧
        s.1.udp.remote_endpoint_ = addrOther) ∧
    (∀ (r : Addr) (buf1 buf2 : Packet) (cfg : Config) (b0 : Bridge),
        startConnections (Except.ok r) (Except.ok ()) buf1 buf2 cfg
          = StartResult.ran b0 →
        b0.udp.remote_endpoint_ = { host := cfg.udpIp, port := cfg.udpPort }) :=
  C1_amended bridge0 bridge0.udp pktA pktA addrOther rfl

/-- C3 is false on the code on the UDP side: a datagram of 10 bytes
(`dShort`, shorter than `packetSize`) completes with a zero error code;
the handler ignores the completion length and forwards the full 56-byte
buffer — the short payload followed by stale bytes of the previous packet
— to the TCP endpoint, instead of treating the short receive as a
transport error. -/
theorem C3_counterexample :
    dShort.length < packetSize ∧
    (bridgeStale.udp_read_done none addrOther dShort).map Prod.snd
      = some [Action.tcpWriteIssued (fillBuffer pktB dShort),
              Action.udpRecvIssued] ∧
    fillBuffer pktB dShort ≠ dShort := by
  exact ⟨by decide, rfl, by decide⟩

/-- C3 (amended): on the TCP read path a short read is delivered as an
error completion (asio's `async_read` completes without error only once
all 56 bytes arrived) and is treated as a transport error — one log line,
the socket is closed, nothing is forwarded and nothing is buffered.  On
the UDP receive path a short datagram is *not* treated as an error: it
completes with a zero error code and the handler forwards the whole
56-byte buffer (short payload followed by the previous buffer contents)
and re-arms. -/
theorem C3_amended (b : Bridge) (e : String) (d : Packet) (sender : Addr)
    (h2 : b.udp.tcpServerSet = true) :
    b.tcp_read_done (some e) d =
      some ({ b with tcp := { b.tcp with sock := TcpSock.closed } },
        [Action.logError ("SocketBridge: TCP failed read: " ++ e)]) ∧
    b.udp_read_done none sender d =
      some ({ tcp := b.tcp
              udp := { sockOpen := b.udp.sockOpen
                       recv_buffer_ := fillBuffer b.udp.recv_buffer_ d
                       remote_endpoint_ := sender
                       tcpServerSet := b.udp.tcpServerSet } },
            [Action.tcpWriteIssued (fillBuffer b.udp.recv_buffer_ d),
             Action.udpRecvIssued]) :=
  ⟨rfl, udp_read_done_success b sender d h2⟩

/-- C3 amended witness at concrete inputs. -/
theorem C3_amended_witness :
    bridgeStale.tcp_read_done (some "eof") pktA =
      some ({ bridgeStale with
                tcp := { bridgeStale.tcp with sock := TcpSock.closed } },
        [Action.logError ("SocketBridge: TCP failed read: " ++ "eof")]) ∧
    bridgeStale.udp_read_done none addrOther dShort =
      some ({ tcp := bridgeStale.tcp
              udp := { sockOpen := bridgeStale.udp.sockOpen
                       recv_buffer_ := fillBuffer bridgeStale.udp.recv_buffer_ dShort
                       remote_endpoint_ := addrOther
                       tcpServerSet := bridgeStale.udp.tcpServerSet } },
            [Action.tcpWriteIssued (fillBuffer bridgeStale.udp.recv_buffer_ dShort),
             Action.udpRecvIssued]) :=
  C3_amended bridgeStale "eof" dShort addrOther rfl

/-- C8: the packet parameter of `handle_write` / `handle_send` is taken by
value, so overwriting the source endpoint's receive buffer by a later
read/receive does not alter a packet already handed over.  Two successive
successful receives forward `d1` then `d2`: the first forwarded packet
still carries `d1` even though the receive buffer finally holds `d2`; the
same in the TCP-read direction. -/
theorem C8_by_value_copy (b : Bridge) (s1 s2 : Addr) (d1 d2 p1 p2 : Packet)
    (hd1 : d1.length = packetSize) (hd2 : d2.length = packetSize)
    (hp1 : p1.length = packetSize) (hp2 : p2.length = packetSize)
    (hbu : b.udp.recv_buffer_.length = packetSize)
    (hbt : b.tcp.recv_buffer_.length = packetSize)
    (h1 : b.tcp.udpServerSet = true) (h2 : b.udp.tcpServerSet = true) :
    (∃ s, b.run [Event.udpRecvDone none s1 d1, Event.udpRecvDone none s2 d2]
        = some s ∧
      s.2 = [Action.tcpWriteIssued d1, Action.udpRecvIssued,
             Action.tcpWriteIssued d2, Action.udpRecvIssued] ∧
      s.1.udp.recv_buffer_ = d2) ∧
    (∃ s, b.run [Event.tcpReadDone none p1, Event.tcpReadDone none p2]
        = some s ∧
      s.2 = [Action.udpSendToIssued p1 b.udp.remote_endpoint_,
             Action.tcpReadIssued,
             Action.udpSendToIssued p2 b.udp.remote_endpoint_,
             Action.tcpReadIssued] ∧
      s.1.tcp.recv_buffer_ = p2) := by
  have hf1 : fillBuffer b.udp.recv_buffer_ d1 = d1 :=
    fillBuffer_full _ _ (by rw [hbu, hd1])
  have hf2 : fillBuffer d1 d2 = d2 :=
    fillBuffer_full _ _ (by rw [hd1, hd2])
  have hg1 : fillBuffer b.tcp.recv_buffer_ p1 = p1 :=
    fillBuffer_full _ _ (by rw [hbt, hp1])
  have hg2 : fillBuffer p1 p2 = p2 :=
    fillBuffer_full _ _ (by rw [hp1, hp2])
  constructor
  · have hstep1 : b.step (Event.udpRecvDone none s1 d1)
        = some ({ tcp := b.tcp
                  udp := { sockOpen := b.udp.sockOpen, recv_buffer_ := d1
                           remote_endpoint_ := s1
                           tcpServerSet := b.udp.tcpServerSet } },
                [Action.tcpWriteIssued d1, Action.udpRecvIssued]) := by
      show b.udp_read_done none s1 d1 = _
      rw [udp_read_done_success b s1 d1 h2, hf1]
    have hstep2 : Bridge.step
        { tcp := b.tcp
          udp := { sockOpen := b.udp.sockOpen, recv_buffer_ := d1
                   remote_endpoint_ := s1, tcpServerSet := b.udp.tcpServerSet } }
        (Event.udpRecvDone none s2 d2)
        = some ({ tcp := b.tcp
                  udp := { sockOpen := b.udp.sockOpen, recv_buffer_ := d2
                           remote_endpoint_ := s2
                           tcpServerSet := b.udp.tcpServerSet } },
                [Action.tcpWriteIssued d2, Action.udpRecvIssued]) := by
      show Bridge.udp_read_done _ none s2 d2 = _
      rw [udp_read_done_success
            { tcp := b.tcp
              udp := { sockOpen := b.udp.sockOpen, recv_buffer_ := d1
                       remote_endpoint_ := s1
                       tcpServerSet := b.udp.tcpServerSet } } s2 d2 h2, hf2]
    refine ⟨({ tcp := b.tcp
               udp := { sockOpen := b.udp.sockOpen, recv_buffer_ := d2
                        remote_endpoint_ := s2
                        tcpServerSet := b.udp.tcpServerSet } },
             [Action.tcpWriteIssued d1, Action.udpRecvIssued,
              Action.tcpWriteIssued d2, Action.udpRecvIssued]), ?_, rfl, rfl⟩
    simp [Bridge.run, hstep1, hstep2]
  · have hstep1 : b.step (Event.tcpReadDone none p1)
        = some ({ tcp := { sock := b.tcp.sock, recv_buffer_ := p1
                           udpServerSet := b.tcp.udpServerSet }
                  udp := b.udp },
                [Action.udpSendToIssued p1 b.udp.remote_endpoint_,
                 Action.tcpReadIssued]) := by
      show b.tcp_read_done none p1 = _
      rw [tcp_read_done_success b p1 h1, hg1]
    have hstep2 : Bridge.step
        { tcp := { sock := b.tcp.sock, recv_buffer_ := p1
                   udpServerSet := b.tcp.udpServerSet }
          udp := b.udp }
        (Event.tcpReadDone none p2)
        = some ({ tcp := { sock := b.tcp.sock, recv_buffer_ := p2
                           udpServerSet := b.tcp.udpServerSet }
                  udp := b.udp },
                [Action.udpSendToIssued p2 b.udp.remote_endpoint_,
                 Action.tcpReadIssued]) := by
      show Bridge.tcp_read_done _ none p2 = _
      rw [tcp_read_done_success
            { tcp := { sock := b.tcp.sock, recv_buffer_ := p1
                       udpServerSet := b.tcp.udpServerSet }
              udp := b.udp } p2 h1, hg2]
    refine ⟨({ tcp := { sock := b.tcp.sock, recv_buffer_ := p2
                        udpServerSet := b.tcp.udpServerSet }
               udp := b.udp },
             [Action.udpSendToIssued p1 b.udp.remote_endpoint_,
              Action.tcpReadIssued,
              Action.udpSendToIssued p2 b.udp.remote_endpoint_,
              Action.tcpReadIssued]), ?_, rfl, rfl⟩
    simp [Bridge.run, hstep1, hstep2]

/-- C8 witness at concrete inputs. -/
theorem C8_by_value_copy_witness :
    (∃ s, bridge0.run [Event.udpRecvDone none addrOther pktA,
        Event.udpRecvDone none addrConfigured pktB] = some s ∧
      s.2 = [Action.tcpWriteIssued pktA, Action.udpRecvIssued,
             Action.tcpWriteIssued pktB, Action.udpRecvIssued] ∧
      s.1.udp.recv_buffer_ = pktB) ∧
    (∃ s, bridge0.run [Event.tcpReadDone none pktA,
        Event.tcpReadDone none pktB] = some s ∧
      s.2 = [Action.udpSendToIssued pktA bridge0.udp.remote_endpoint_,
             Action.tcpReadIssued,
             Action.udpSendToIssued pktB bridge0.udp.remote_endpoint_,
             Action.tcpReadIssued] ∧
      s.1.tcp.recv_buffer_ = pktB) :=
  C8_by_value_copy bridge0 addrOther addrConfigured pktA pktB pktA pktB
    (by decide) (by decide) (by decide) (by decide) (by decide) (by decide)
    rfl rfl

/-- C10: after a UDP receive error the receive loop stops (only a log, no
re-arm) but the UDP state — its open socket and `remote_endpoint_` — is
untouched, and a later successful TCP read still issues a UDP send-to:
the TCP-to-UDP direction keeps working. -/
theorem C10_send_after_recv_error (b : Bridge) (e : String) (s : Addr)
    (d p : Packet) (hp : p.length = packetSize)
    (hbt : b.tcp.recv_buffer_.length = packetSize)
    (h1 : b.tcp.udpServerSet = true) (hopen : b.udp.sockOpen = true) :
    ∃ s', b.run [Event.udpRecvDone (some e) s d, Event.tcpReadDone none p]
        = some s' ∧
      s'.2 = [Action.logError ("SocketBridge: UDP reading failed: " ++ e),
              Action.udpSendToIssued p b.udp.remote_endpoint_,
              Action.tcpReadIssued] ∧
      s'.1.udp = b.udp ∧ s'.1.udp.sockOpen = true := by
  have hg : fillBuffer b.tcp.recv_buffer_ p = p :=
    fillBuffer_full _ _ (by rw [hbt, hp])
  have hstep1 : b.step (Event.udpRecvDone (some e) s d)
      = some (b, [Action.logError ("SocketBridge: UDP reading failed: " ++ e)]) := by
    show b.udp_read_done (some e) s d = _
    rfl
  have hstep2 : b.step (Event.tcpReadDone none p)
      = some ({ tcp := { sock := b.tcp.sock, recv_buffer_ := p
                         udpServerSet := b.tcp.udpServerSet }
                udp := b.udp },
              [Action.udpSendToIssued p b.udp.remote_endpoint_,
               Action.tcpReadIssued]) := by
    show b.tcp_read_done none p = _
    rw [tcp_read_done_success b p h1, hg]
  refine ⟨({ tcp := { sock := b.tcp.sock, recv_buffer_ := p
                      udpServerSet := b.tcp.udpServerSet }
             udp := b.udp },
           [Action.logError ("SocketBridge: UDP reading failed: " ++ e),
            Action.udpSendToIssued p b.udp.remote_endpoint_,
            Action.tcpReadIssued]), ?_, rfl, rfl, hopen⟩
  simp [Bridge.run, hstep1, hstep2]

/-- C10 witness at concrete inputs. -/
theorem C10_send_after_recv_error_witness :
    ∃ s', bridge0.run [Event.udpRecvDone (some "conn refused") addrOther dShort,
        Event.tcpReadDone none pktA] = some s' ∧
      s'.2 = [Action.logError ("SocketBridge: UDP reading failed: " ++ "conn refused"),
              Action.udpSendToIssued pktA bridge0.udp.remote_endpoint_,
              Action.tcpReadIssued] ∧
      s'.1.udp = bridge0.udp ∧ s'.1.udp.sockOpen = true :=
  C10_send_after_recv_error bridge0 "conn refused" addrOther dShort pktA
    (by decide) (by decide) rfl rfl

/-- On a wired bridge (both cross pointers set) every handler dispatch
succeeds — no null dereference — and the successor bridge is still
wired: no handler ever unsets `udpServer` or `tcpServer`. -/
lemma step_wired (b : Bridge) (e : Event) (h1 : b.tcp.udpServerSet = true)
    (h2 : b.udp.tcpServerSet = true) :
    ∃ s, b.step e = some s ∧ s.1.tcp.udpServerSet = true ∧
      s.1.udp.tcpServerSet = true := by
  cases e with
  | tcpConnectDone ec =>
      cases ec with
      | none => exact ⟨_, rfl, h1, h2⟩
      | some e' => exact ⟨_, rfl, h1, h2⟩
  | tcpReadDone ec data =>
      cases ec with
      | none => exact ⟨_, tcp_read_done_success b data h1, h1, h2⟩
      | some e' => exact ⟨_, rfl, h1, h2⟩
  | tcpWriteDone ec =>
      cases ec with
      | none => exact ⟨_, rfl, h1, h2⟩
      | some e' => exact ⟨_, rfl, h1, h2⟩
  | udpRecvDone ec sender data =>
      cases ec with
      | none => exact ⟨_, udp_read_done_success b sender data h2, h1, h2⟩
      | some e' => exact ⟨_, rfl, h1, h2⟩
  | udpSendDone ec =>
      cases ec with
      | none => exact ⟨_, rfl, h1, h2⟩
      | some e' => exact ⟨_, rfl, h1, h2⟩

/-- The event loop never hits a null dereference when started on a wired
bridge, whatever completions it delivers. -/
lemma run_isSome_of_wired :
    ∀ (evs : List Event) (b : Bridge), b.tcp.udpServerSet = true →
      b.udp.tcpServerSet = true → (b.run evs).isSome := by
  intro evs
  induction evs with
  | nil => intro b _ _; simp [Bridge.run]
  | cons e es ih =>
      intro b h1 h2
      obtain ⟨s, hs, hw1, hw2⟩ := step_wired b e h1 h2
      have hrec := ih s.1 hw1 hw2
      simp only [Bridge.run, hs]
      cases hr : s.1.run es with
      | none => rw [hr] at hrec; simp at hrec
      | some s' => simp [hr]

/-- C9: `startConnections` cross-wires the two endpoints (`setUdp`,
`setTcp`) before `io_service.run()` executes any completion handler, so
every forwarding call made by a handler dereferences a back-reference
pointer that is already set: for the bridge `startConnections` hands to
the loop, processing any sequence of completion events never reaches the
unset-pointer (null-dereference) outcome. -/
theorem C9_wired_before_run (r : Addr) (buf1 buf2 : Packet) (cfg : Config)
    (b : Bridge)
    (h : startConnections (Except.ok r) (Except.ok ()) buf1 buf2 cfg
          = StartResult.ran b) (evs : List Event) :
    (b.run evs).isSome := by
  simp only [startConnections, TCP_Client.setUdp, UDP_Server.setTcp] at h
  injection h with h'
  exact run_isSome_of_wired evs b (by rw [← h']) (by rw [← h'])

/-- C9 witness at a concrete configuration and event sequence. -/
theorem C9_wired_before_run_witness :
    (bridge0.run [Event.udpRecvDone none addrOther pktA,
        Event.tcpReadDone none pktB]).isSome :=
  C9_wired_before_run tcpAddrEx zeroBuf zeroBuf cfgEx bridge0 rfl
    [Event.udpRecvDone none addrOther pktA, Event.tcpReadDone none pktB]

end SocketBridge
